import Mathlib

/-!
# BaseLocAppl: gate dispatch and forwarding

Shallow embedding of `src/base/modules/BaseLocAppl.cc`.

The module is a leaf adapter between the simulation kernel and the
localization algorithms that subclass it.  Everything it does is either an
assignment to one of its own seven `int` fields or a call into code that
lives elsewhere (the kernel's `par`, `findGate`, `send`, `sendDelayed`, the
log stream `EV`, the base class `BaseModule::initialize`, and the four virtual
handlers).  The embedding therefore passes an explicit state made of

* the module's fields (`BaseLocAppl`), and
* the ordered list of calls that left the module (`Call`),

and every method of the source is a function on that state.  Gate ids, the
stage and the header length are C++ `int`s; the code only assigns and compares
them, so they are embedded as `Int`.  The message payload and the delay
(`double` in the source) are never inspected by the code and are kept as type
parameters `α` and `δ`.
-/

/-- Kernel message object (`cMessage`): the code reads only `arrivalGateId()`;
`content` stands for everything else the message carries. -/
structure cMessage (α : Type) where
  arrivalGateId : Int
  content : α
deriving DecidableEq

/-- What the simulation kernel answers to the module's look-ups: the configured
value of a named parameter and the id of a named gate. -/
structure Host where
  par : String → Int
  findGate : String → Int

/-- The four virtual handlers `handleMessage` dispatches to. -/
inductive Handler where
  | handleLowerMsg
  | handleLowerControl
  | handleLocMsg
  | handleSelfMsg
deriving DecidableEq

/-- A call that leaves `BaseLocAppl.cc`. -/
inductive Call (α δ : Type) where
  /-- `BaseModule::initialize(stage)` -/
  | baseInitialize (stage : Int)
  /-- `par(name)` -/
  | par (name : String)
  /-- `findGate(name)` -/
  | findGate (name : String)
  /-- `EV << text << endl` -/
  | EV (text : String)
  /-- one of the virtual handlers, called on `msg` -/
  | invoke (h : Handler) (msg : cMessage α)
  /-- `send(msg, gateid)`: the kernel's immediate send, which takes no delay -/
  | send (msg : cMessage α) (gateid : Int)
  /-- `sendDelayed(msg, delay, gateid)` -/
  | sendDelayed (msg : cMessage α) (delay : δ) (gateid : Int)
deriving DecidableEq

/-- The data members `BaseLocAppl.cc` assigns and reads. -/
structure BaseLocAppl where
  headerLength : Int
  lowergateOut : Int
  lowergateIn : Int
  lowerControlIn : Int
  lowerControlOut : Int
  locgateIn : Int
  locgateOut : Int
deriving DecidableEq

/-- The state threaded through every method: the module's fields and the calls
issued so far, oldest first. -/
structure World (α δ : Type) where
  self : BaseLocAppl
  trace : List (Call α δ)
deriving DecidableEq

variable {α δ : Type}

/-- Record one outgoing call. -/
def World.call (w : World α δ) (c : Call α δ) : World α δ :=
  { w with trace := w.trace ++ [c] }

/-! ## Calls into the kernel, the base class and the subclass -/

namespace cModule

/-- `par(name)`: returns the configured value. -/
def par (host : Host) (name : String) (w : World α δ) : Int × World α δ :=
  (host.par name, w.call (Call.par name))

/-- `findGate(name)`: returns the gate's id. -/
def findGate (host : Host) (name : String) (w : World α δ) : Int × World α δ :=
  (host.findGate name, w.call (Call.findGate name))

/-- `EV << text << endl`. -/
def EV (text : String) (w : World α δ) : World α δ :=
  w.call (Call.EV text)

/-- `send(msg, gateid)`. -/
def send (msg : cMessage α) (gateid : Int) (w : World α δ) : World α δ :=
  w.call (Call.send msg gateid)

/-- `sendDelayed(msg, delay, gateid)`. -/
def sendDelayed (msg : cMessage α) (delay : δ) (gateid : Int) (w : World α δ) : World α δ :=
  w.call (Call.sendDelayed msg delay gateid)

end cModule

/-- `BaseModule::initialize(stage)`: base-class code, which cannot name the
fields of `BaseLocAppl`; the call is recorded. -/
def BaseModule.initialize (stage : Int) (w : World α δ) : World α δ :=
  w.call (Call.baseInitialize stage)

namespace BaseLocAppl

/-- Virtual `handleLowerMsg(msg)`: the body belongs to the subclass; the call is
recorded. -/
def handleLowerMsg (msg : cMessage α) (w : World α δ) : World α δ :=
  w.call (Call.invoke Handler.handleLowerMsg msg)

/-- Virtual `handleLowerControl(msg)`. -/
def handleLowerControl (msg : cMessage α) (w : World α δ) : World α δ :=
  w.call (Call.invoke Handler.handleLowerControl msg)

/-- Virtual `handleLocMsg(msg)`. -/
def handleLocMsg (msg : cMessage α) (w : World α δ) : World α δ :=
  w.call (Call.invoke Handler.handleLocMsg msg)

/-- Virtual `handleSelfMsg(msg)`. -/
def handleSelfMsg (msg : cMessage α) (w : World α δ) : World α δ :=
  w.call (Call.invoke Handler.handleSelfMsg msg)

end BaseLocAppl

/-! ## The methods of `BaseLocAppl.cc` -/

/-- `BaseLocAppl::initialize(int stage)`, lines 25-38. -/
def BaseLocAppl.initialize (host : Host) (stage : Int) (w : World α δ) : World α δ :=
  let w := BaseModule.initialize stage w
  if stage = 0 then
    let r := cModule.par host "headerLength" w
    let w := { r.2 with self := { r.2.self with headerLength := r.1 } }
    let r := cModule.findGate host "lowergateOut" w
    let w := { r.2 with self := { r.2.self with lowergateOut := r.1 } }
    let r := cModule.findGate host "lowergateIn" w
    let w := { r.2 with self := { r.2.self with lowergateIn := r.1 } }
    let r := cModule.findGate host "lowerControlIn" w
    let w := { r.2 with self := { r.2.self with lowerControlIn := r.1 } }
    let r := cModule.findGate host "lowerControlOut" w
    let w := { r.2 with self := { r.2.self with lowerControlOut := r.1 } }
    let r := cModule.findGate host "locgateIn" w
    let w := { r.2 with self := { r.2.self with locgateIn := r.1 } }
    let r := cModule.findGate host "locgateOut" w
    { r.2 with self := { r.2.self with locgateOut := r.1 } }
  else
    w

namespace BaseLocAppl

/-- `BaseLocAppl::handleMessage(cMessage* msg)`, lines 40-53. -/
def handleMessage (msg : cMessage α) (w : World α δ) : World α δ :=
  if msg.arrivalGateId = w.self.lowergateIn then
    handleLowerMsg msg w
  else if msg.arrivalGateId = w.self.lowerControlIn then
    let w := cModule.EV "handle lower control" w
    handleLowerControl msg w
  else if msg.arrivalGateId = w.self.locgateIn then
    let w := cModule.EV "handle localization message" w
    handleLocMsg msg w
  else
    handleSelfMsg msg w

/-- `BaseLocAppl::sendDown(cMessage* msg)`, lines 55-58. -/
def sendDown (msg : cMessage α) (w : World α δ) : World α δ :=
  cModule.send msg w.self.lowergateOut w

/-- `BaseLocAppl::sendDelayedDown(cMessage* msg, double delay)`, lines 60-63. -/
def sendDelayedDown (msg : cMessage α) (delay : δ) (w : World α δ) : World α δ :=
  cModule.sendDelayed msg delay w.self.lowergateOut w

/-- `BaseLocAppl::sendControlDown(cMessage* msg)`, lines 65-68. -/
def sendControlDown (msg : cMessage α) (w : World α δ) : World α δ :=
  cModule.send msg w.self.lowerControlOut w

/-- `BaseLocAppl::sendLoc(cMessage* msg)`, lines 70-73. -/
def sendLoc (msg : cMessage α) (w : World α δ) : World α δ :=
  cModule.send msg w.self.locgateOut w

end BaseLocAppl

/-! ## Reading a trace -/

/-- The handler call a trace entry is, if it is one. -/
def Call.invocation : Call α δ → Option (Handler × cMessage α)
  | Call.invoke h msg => some (h, msg)
  | _ => none

/-- The handler calls of a trace, in order, each with the message it was given. -/
def invocations (t : List (Call α δ)) : List (Handler × cMessage α) :=
  t.filterMap Call.invocation

/-- The gate name a trace entry looks up, if it is a `findGate`. -/
def Call.gateLookup : Call α δ → Option String
  | Call.findGate name => some name
  | _ => none

/-- The gate names looked up in a trace, in order. -/
def gateLookups (t : List (Call α δ)) : List String :=
  t.filterMap Call.gateLookup

/-- The parameter name a trace entry reads, if it is a `par`. -/
def Call.parLookup : Call α δ → Option String
  | Call.par name => some name
  | _ => none

/-- The parameter names read in a trace, in order. -/
def parLookups (t : List (Call α δ)) : List String :=
  t.filterMap Call.parLookup

/-- The gate-id fields of the module, in the order `initialize` assigns them. -/
def BaseLocAppl.gateIds (s : BaseLocAppl) : List Int :=
  [s.lowergateOut, s.lowergateIn, s.lowerControlIn, s.lowerControlOut, s.locgateIn, s.locgateOut]

/-- How many gate-id fields differ between two module states. -/
def changedGateIds (before after : BaseLocAppl) : Nat :=
  ((before.gateIds.zip after.gateIds).filter (fun p => decide (p.1 ≠ p.2))).length

/-- The dispatch order in the spec's words: the downward data port first, else
the downward control port, else the peer localization port, else the self
message handler. -/
def dispatchPriority (arrival lowergateIn lowerControlIn locgateIn : Int) : Handler :=
  if arrival = lowergateIn then Handler.handleLowerMsg
  else if arrival = lowerControlIn then Handler.handleLowerControl
  else if arrival = locgateIn then Handler.handleLocMsg
  else Handler.handleSelfMsg

/-! ## Concrete inputs -/

/-- A kernel in which the six gates exist with ids 1 to 6 (any other name is
unresolved, `-1`) and `headerLength` is configured as 16. -/
def demoHost : Host where
  par := fun name => if name = "headerLength" then 16 else 0
  findGate := fun name =>
    if name = "lowergateOut" then 1
    else if name = "lowergateIn" then 2
    else if name = "lowerControlIn" then 3
    else if name = "lowerControlOut" then 4
    else if name = "locgateIn" then 5
    else if name = "locgateOut" then 6
    else -1

/-- A kernel in which the module was declared without gates: every `findGate`
answers `-1`. -/
def gatelessHost : Host where
  par := fun _ => 16
  findGate := fun _ => -1

/-- A module whose fields are all zero and which has issued no call yet. -/
def freshWorld : World Nat Nat :=
  { self := ⟨0, 0, 0, 0, 0, 0, 0⟩, trace := [] }

/-- The module after stage 0 under `demoHost`, with an empty call record. -/
def demoWorld : World Nat Nat :=
  { self := ⟨16, 1, 2, 3, 4, 5, 6⟩, trace := [] }

/-- The module after stage 0 under `gatelessHost`: all gate ids are `-1`. -/
def gatelessWorld : World Nat Nat :=
  { self := ⟨16, -1, -1, -1, -1, -1, -1⟩, trace := [] }

/-- A message with payload 7 arriving on gate `g`. -/
def msgOn (g : Int) : cMessage Nat :=
  { arrivalGateId := g, content := 7 }

/-- A self-scheduled message: it has no arrival gate, which the kernel reports
as id `-1`. -/
def selfMsg : cMessage Nat :=
  msgOn (-1)

/-- A kernel in which only the downward data gates exist (ids 1 and 2); the
control and localization gates are unresolved, `-1`. -/
def dataOnlyHost : Host where
  par := fun _ => 16
  findGate := fun name =>
    if name = "lowergateOut" then 1
    else if name = "lowergateIn" then 2
    else -1

/-! ## Helper lemmas on traces -/

theorem invocations_append (s t : List (Call α δ)) :
    invocations (s ++ t) = invocations s ++ invocations t := by
  simp [invocations, List.filterMap_append]

theorem gateLookups_append (s t : List (Call α δ)) :
    gateLookups (s ++ t) = gateLookups s ++ gateLookups t := by
  simp [gateLookups, List.filterMap_append]

theorem parLookups_append (s t : List (Call α δ)) :
    parLookups (s ++ t) = parLookups s ++ parLookups t := by
  simp [parLookups, List.filterMap_append]

/-- The calls `handleMessage` adds to the record, branch by branch. -/
theorem handleMessage_trace (msg : cMessage α) (w : World α δ) :
    (BaseLocAppl.handleMessage msg w).trace = w.trace ++
      (if msg.arrivalGateId = w.self.lowergateIn then
        [Call.invoke Handler.handleLowerMsg msg]
      else if msg.arrivalGateId = w.self.lowerControlIn then
        [Call.EV "handle lower control", Call.invoke Handler.handleLowerControl msg]
      else if msg.arrivalGateId = w.self.locgateIn then
        [Call.EV "handle localization message", Call.invoke Handler.handleLocMsg msg]
      else
        [Call.invoke Handler.handleSelfMsg msg]) := by
  unfold BaseLocAppl.handleMessage
  split_ifs <;>
    simp [BaseLocAppl.handleLowerMsg, BaseLocAppl.handleLowerControl, BaseLocAppl.handleLocMsg,
      BaseLocAppl.handleSelfMsg, cModule.EV, World.call]

/-- The state `initialize` produces at stage 0. -/
theorem initialize_zero (host : Host) (w : World α δ) :
    BaseLocAppl.initialize host 0 w =
      { self :=
          { headerLength := host.par "headerLength"
            lowergateOut := host.findGate "lowergateOut"
            lowergateIn := host.findGate "lowergateIn"
            lowerControlIn := host.findGate "lowerControlIn"
            lowerControlOut := host.findGate "lowerControlOut"
            locgateIn := host.findGate "locgateIn"
            locgateOut := host.findGate "locgateOut" }
        trace := w.trace ++
          [Call.baseInitialize 0, Call.par "headerLength", Call.findGate "lowergateOut",
            Call.findGate "lowergateIn", Call.findGate "lowerControlIn",
            Call.findGate "lowerControlOut", Call.findGate "locgateIn",
            Call.findGate "locgateOut"] } := by
  simp [ BaseLocAppl.initialize, BaseModule.initialize, cModule.par, cModule.findGate, World.call]

/-- The state `initialize` produces at any other stage. -/
theorem initialize_nonzero (host : Host) (stage : Int) (w : World α δ) (h : stage ≠ 0) :
    BaseLocAppl.initialize host stage w =
      { self := w.self, trace := w.trace ++ [Call.baseInitialize stage] } := by
  simp [ BaseLocAppl.initialize, BaseModule.initialize, World.call, h]

/-! ## Dispatch (`handleMessage`) -/

/-- C1: for every module state and every message whose arrival gate id equals
the stored `lowergateIn`, the handler calls `handleMessage` makes are exactly
one call of `handleLowerMsg` on that message; `handleLowerControl`,
`handleLocMsg` and `handleSelfMsg` are not called. -/
theorem handleMessage_lowergateIn (msg : cMessage α) (w : World α δ)
    (h : msg.arrivalGateId = w.self.lowergateIn) :
    invocations (BaseLocAppl.handleMessage msg w).trace
      = invocations w.trace ++ [(Handler.handleLowerMsg, msg)] := by
  rw [handleMessage_trace, invocations_append, if_pos h]
  rfl

theorem handleMessage_lowergateIn_witness :
    (msgOn 2).arrivalGateId = demoWorld.self.lowergateIn ∧
    invocations (BaseLocAppl.handleMessage (msgOn 2) demoWorld).trace
      = invocations demoWorld.trace ++ [(Handler.handleLowerMsg, msgOn 2)] :=
  ⟨by decide, handleMessage_lowergateIn (msgOn 2) demoWorld (by decide)⟩

/-- C2, as stated, fails: after stage 0 on a module declared without gates
both `lowergateIn` and `lowerControlIn` hold `-1`; a self message (arrival id
`-1`) then equals `lowerControlIn`, yet `handleLowerMsg` is what is called and
`handleLowerControl` is not. -/
theorem handleMessage_lowerControlIn_shadowed :
    selfMsg.arrivalGateId
        = ( BaseLocAppl.initialize gatelessHost 0 freshWorld).self.lowerControlIn ∧
    invocations (BaseLocAppl.handleMessage selfMsg
        ( BaseLocAppl.initialize gatelessHost 0 freshWorld)).trace
      = [(Handler.handleLowerMsg, selfMsg)] ∧
    (Handler.handleLowerControl, selfMsg) ∉
      invocations (BaseLocAppl.handleMessage selfMsg
        ( BaseLocAppl.initialize gatelessHost 0 freshWorld)).trace := by
  decide

/-- C2 (amended): for every module state and every message whose arrival gate
id equals the stored `lowerControlIn` and differs from the stored
`lowergateIn`, the handler calls `handleMessage` makes are exactly one call of
`handleLowerControl` on that message; no other handler is called. -/
theorem handleMessage_lowerControlIn (msg : cMessage α) (w : World α δ)
    (h : msg.arrivalGateId = w.self.lowerControlIn)
    (h₁ : msg.arrivalGateId ≠ w.self.lowergateIn) :
    invocations (BaseLocAppl.handleMessage msg w).trace
      = invocations w.trace ++ [(Handler.handleLowerControl, msg)] := by
  rw [handleMessage_trace, invocations_append, if_neg h₁, if_pos h]
  rfl

theorem handleMessage_lowerControlIn_witness :
    (msgOn 3).arrivalGateId = demoWorld.self.lowerControlIn ∧
    (msgOn 3).arrivalGateId ≠ demoWorld.self.lowergateIn ∧
    invocations (BaseLocAppl.handleMessage (msgOn 3) demoWorld).trace
      = invocations demoWorld.trace ++ [(Handler.handleLowerControl, msgOn 3)] :=
  ⟨by decide, by decide,
    handleMessage_lowerControlIn (msgOn 3) demoWorld (by decide) (by decide)⟩

/-- C3, as stated, fails: after stage 0 on a module that declares only the
downward data gates, `lowerControlIn` and `locgateIn` both hold `-1`; a self
message (arrival id `-1`) then equals `locgateIn`, yet `handleLowerControl` is
what is called and `handleLocMsg` is not. -/
theorem handleMessage_locgateIn_shadowed :
    selfMsg.arrivalGateId
        = ( BaseLocAppl.initialize dataOnlyHost 0 freshWorld).self.locgateIn ∧
    invocations (BaseLocAppl.handleMessage selfMsg
        ( BaseLocAppl.initialize dataOnlyHost 0 freshWorld)).trace
      = [(Handler.handleLowerControl, selfMsg)] ∧
    (Handler.handleLocMsg, selfMsg) ∉
      invocations (BaseLocAppl.handleMessage selfMsg
        ( BaseLocAppl.initialize dataOnlyHost 0 freshWorld)).trace := by
  decide

/-- C3 (amended): for every module state and every message whose arrival gate
id equals the stored `locgateIn` and differs from the stored `lowergateIn` and
`lowerControlIn`, the handler calls `handleMessage` makes are exactly one call
of `handleLocMsg` on that message; no other handler is called. -/
theorem handleMessage_locgateIn (msg : cMessage α) (w : World α δ)
    (h : msg.arrivalGateId = w.self.locgateIn)
    (h₁ : msg.arrivalGateId ≠ w.self.lowergateIn)
    (h₂ : msg.arrivalGateId ≠ w.self.lowerControlIn) :
    invocations (BaseLocAppl.handleMessage msg w).trace
      = invocations w.trace ++ [(Handler.handleLocMsg, msg)] := by
  rw [handleMessage_trace, invocations_append, if_neg h₁, if_neg h₂, if_pos h]
  rfl

theorem handleMessage_locgateIn_witness :
    (msgOn 5).arrivalGateId = demoWorld.self.locgateIn ∧
    (msgOn 5).arrivalGateId ≠ demoWorld.self.lowergateIn ∧
    (msgOn 5).arrivalGateId ≠ demoWorld.self.lowerControlIn ∧
    invocations (BaseLocAppl.handleMessage (msgOn 5) demoWorld).trace
      = invocations demoWorld.trace ++ [(Handler.handleLocMsg, msgOn 5)] :=
  ⟨by decide, by decide, by decide,
    handleMessage_locgateIn (msgOn 5) demoWorld (by decide) (by decide) (by decide)⟩

/-- C4: for every module state and every message whose arrival gate id differs
from the stored `lowergateIn`, `lowerControlIn` and `locgateIn`, the handler
calls `handleMessage` makes are exactly one call of `handleSelfMsg` on that
message; none of the other three handlers is called. -/
theorem handleMessage_other (msg : cMessage α) (w : World α δ)
    (h₁ : msg.arrivalGateId ≠ w.self.lowergateIn)
    (h₂ : msg.arrivalGateId ≠ w.self.lowerControlIn)
    (h₃ : msg.arrivalGateId ≠ w.self.locgateIn) :
    invocations (BaseLocAppl.handleMessage msg w).trace
      = invocations w.trace ++ [(Handler.handleSelfMsg, msg)] := by
  rw [handleMessage_trace, invocations_append, if_neg h₁, if_neg h₂, if_neg h₃]
  rfl

theorem handleMessage_other_witness :
    selfMsg.arrivalGateId ≠ demoWorld.self.lowergateIn ∧
    selfMsg.arrivalGateId ≠ demoWorld.self.lowerControlIn ∧
    selfMsg.arrivalGateId ≠ demoWorld.self.locgateIn ∧
    invocations (BaseLocAppl.handleMessage selfMsg demoWorld).trace
      = invocations demoWorld.trace ++ [(Handler.handleSelfMsg, selfMsg)] :=
  ⟨by decide, by decide, by decide,
    handleMessage_other selfMsg demoWorld (by decide) (by decide) (by decide)⟩

/-- C10: for every module state, ties among the inbound ids included, and
every message, `handleMessage` calls exactly one handler exactly once, on that
message, and the handler is the first match of the priority order
(`dispatchPriority`); any other state and message with the same arrival gate id
and the same three inbound ids, whatever their content, `headerLength` and
outbound ids, gets the same handler. -/
theorem handleMessage_first_match (msg : cMessage α) (w : World α δ) :
    ∃ h : Handler,
      h = dispatchPriority msg.arrivalGateId w.self.lowergateIn w.self.lowerControlIn
            w.self.locgateIn ∧
      invocations (BaseLocAppl.handleMessage msg w).trace
        = invocations w.trace ++ [(h, msg)] ∧
      ∀ (msg₂ : cMessage α) (w₂ : World α δ),
        msg₂.arrivalGateId = msg.arrivalGateId →
        w₂.self.lowergateIn = w.self.lowergateIn →
        w₂.self.lowerControlIn = w.self.lowerControlIn →
        w₂.self.locgateIn = w.self.locgateIn →
        invocations (BaseLocAppl.handleMessage msg₂ w₂).trace
          = invocations w₂.trace ++ [(h, msg₂)] := by
  have key : ∀ (m : cMessage α) (v : World α δ),
      invocations (BaseLocAppl.handleMessage m v).trace
        = invocations v.trace ++ [(dispatchPriority m.arrivalGateId v.self.lowergateIn
            v.self.lowerControlIn v.self.locgateIn, m)] := by
    intro m v
    rw [handleMessage_trace, invocations_append]
    unfold dispatchPriority
    split_ifs <;> rfl
  refine ⟨_, rfl, key msg w, ?_⟩
  intro msg₂ w₂ e₀ e₁ e₂ e₃
  rw [key msg₂ w₂, e₀, e₁, e₂, e₃]

theorem handleMessage_first_match_witness :
    invocations (BaseLocAppl.handleMessage selfMsg gatelessWorld).trace
      = [(Handler.handleLowerMsg, selfMsg)] ∧
    invocations (BaseLocAppl.handleMessage (msgOn (-1))
        { self := ⟨0, 8, -1, -1, 9, -1, 10⟩, trace := ([] : List (Call Nat Nat)) }).trace
      = [(Handler.handleLowerMsg, msgOn (-1))] := by
  obtain ⟨h, hh, h₁, h₂⟩ := handleMessage_first_match selfMsg gatelessWorld
  have e : h = Handler.handleLowerMsg := by rw [hh]; decide
  subst e
  exact ⟨h₁, h₂ (msgOn (-1)) _ rfl rfl rfl rfl⟩

/-! ## Forwarding (`sendDown`, `sendDelayedDown`, `sendControlDown`, `sendLoc`) -/

/-- C5: for every module state and message, `sendDown` adds exactly one call to
the record, the kernel's immediate `send` of that very message to the stored
`lowergateOut`; `sendControlDown` exactly one such `send` to the stored
`lowerControlOut`; `sendLoc` exactly one such `send` to the stored
`locgateOut`.  Nothing else is issued (no `sendDelayed`, no other gate). -/
theorem send_immediate (msg : cMessage α) (w : World α δ) :
    (BaseLocAppl.sendDown msg w).trace
      = w.trace ++ [Call.send msg w.self.lowergateOut] ∧
    (BaseLocAppl.sendControlDown msg w).trace
      = w.trace ++ [Call.send msg w.self.lowerControlOut] ∧
    (BaseLocAppl.sendLoc msg w).trace
      = w.trace ++ [Call.send msg w.self.locgateOut] := by
  simp [BaseLocAppl.sendDown, BaseLocAppl.sendControlDown, BaseLocAppl.sendLoc, cModule.send,
    World.call]

/-- C6: for every module state, message and delay, `sendDelayedDown` adds
exactly one call to the record, the kernel's `sendDelayed` of that very
message with that very delay to the stored `lowergateOut`. -/
theorem sendDelayedDown_delayed (msg : cMessage α) (delay : δ) (w : World α δ) :
    (BaseLocAppl.sendDelayedDown msg delay w).trace
      = w.trace ++ [Call.sendDelayed msg delay w.self.lowergateOut] := by
  simp [BaseLocAppl.sendDelayedDown, cModule.sendDelayed, World.call]

/-- C8: for every module state, message and delay, `handleMessage` (its own
dispatch code), `sendDown`, `sendDelayedDown`, `sendControlDown` and `sendLoc`
leave the module's fields (`headerLength` and the six gate ids) as they
were. -/
theorem fields_immutable (msg : cMessage α) (delay : δ) (w : World α δ) :
    (BaseLocAppl.handleMessage msg w).self = w.self ∧
    (BaseLocAppl.sendDown msg w).self = w.self ∧
    (BaseLocAppl.sendDelayedDown msg delay w).self = w.self ∧
    (BaseLocAppl.sendControlDown msg w).self = w.self ∧
    (BaseLocAppl.sendLoc msg w).self = w.self := by
  refine ⟨?_, rfl, rfl, rfl, rfl⟩
  unfold BaseLocAppl.handleMessage
  split_ifs <;> rfl

/-! ## Start-up (`initialize`) -/

/-- C7: `initialize` acts on the module's fields only at stage 0.  At stage 0
`headerLength` becomes the kernel's value of parameter `"headerLength"` and
each gate field the kernel's id of the gate with the same name; at every other
stage all seven fields stay as they were and no `par` or `findGate` is issued
(the only call is the delegation to `BaseModule::initialize`). -/
theorem initialize_stage_zero_only (host : Host) (stage : Int) (w : World α δ) :
    (stage = 0 →
      ( BaseLocAppl.initialize host stage w).self =
        { headerLength := host.par "headerLength"
          lowergateOut := host.findGate "lowergateOut"
          lowergateIn := host.findGate "lowergateIn"
          lowerControlIn := host.findGate "lowerControlIn"
          lowerControlOut := host.findGate "lowerControlOut"
          locgateIn := host.findGate "locgateIn"
          locgateOut := host.findGate "locgateOut" }) ∧
    (stage ≠ 0 →
      ( BaseLocAppl.initialize host stage w).self = w.self ∧
      ( BaseLocAppl.initialize host stage w).trace = w.trace ++ [Call.baseInitialize stage] ∧
      parLookups ( BaseLocAppl.initialize host stage w).trace = parLookups w.trace ∧
      gateLookups ( BaseLocAppl.initialize host stage w).trace = gateLookups w.trace) := by
  constructor
  · intro h
    subst h
    rw [initialize_zero]
  · intro h
    rw [initialize_nonzero host stage w h]
    refine ⟨rfl, rfl, ?_, ?_⟩
    · rw [parLookups_append]
      simp [parLookups, Call.parLookup]
    · rw [gateLookups_append]
      simp [gateLookups, Call.gateLookup]

theorem initialize_stage_zero_only_witness :
    ( BaseLocAppl.initialize demoHost 0 freshWorld).self = ⟨16, 1, 2, 3, 4, 5, 6⟩ ∧
    ( BaseLocAppl.initialize gatelessHost 1 demoWorld).self = demoWorld.self ∧
    ( BaseLocAppl.initialize gatelessHost 1 demoWorld).trace = [Call.baseInitialize 1] :=
  ⟨(initialize_stage_zero_only demoHost 0 freshWorld).1 rfl,
    ((initialize_stage_zero_only gatelessHost 1 demoWorld).2 (by decide)).1,
    ((initialize_stage_zero_only gatelessHost 1 demoWorld).2 (by decide)).2.1⟩

/-- C9, as stated, fails: at stage 0 `initialize` looks up six gate names and
assigns six gate-id fields, not five. -/
theorem initialize_not_five_gates :
    (gateLookups ( BaseLocAppl.initialize demoHost 0 freshWorld).trace).length = 6 ∧
    (gateLookups ( BaseLocAppl.initialize demoHost 0 freshWorld).trace).length ≠ 5 ∧
    changedGateIds freshWorld.self ( BaseLocAppl.initialize demoHost 0 freshWorld).self = 6 ∧
    changedGateIds freshWorld.self ( BaseLocAppl.initialize demoHost 0 freshWorld).self ≠ 5 := by
  decide

/-- C9 (amended): at stage 0 `initialize` reads the parameter `"headerLength"`
once and resolves exactly six gate identifiers by name: it issues six
`findGate` look-ups (`lowergateOut`, `lowergateIn`, `lowerControlIn`,
`lowerControlOut`, `locgateIn`, `locgateOut`) and afterwards `headerLength`
holds the parameter's value and the six gate-id fields hold the six
resolutions. -/
theorem initialize_six_gates (host : Host) (w : World α δ) :
    parLookups ( BaseLocAppl.initialize host 0 w).trace
      = parLookups w.trace ++ ["headerLength"] ∧
    gateLookups ( BaseLocAppl.initialize host 0 w).trace
      = gateLookups w.trace ++ ["lowergateOut", "lowergateIn", "lowerControlIn",
          "lowerControlOut", "locgateIn", "locgateOut"] ∧
    ( BaseLocAppl.initialize host 0 w).self.headerLength = host.par "headerLength" ∧
    ( BaseLocAppl.initialize host 0 w).self.gateIds
      = ["lowergateOut", "lowergateIn", "lowerControlIn", "lowerControlOut", "locgateIn",
          "locgateOut"].map host.findGate ∧
    ( BaseLocAppl.initialize host 0 w).self.gateIds.length = 6 := by
  rw [initialize_zero]
  refine ⟨?_, ?_, rfl, rfl, rfl⟩
  · rw [parLookups_append]
    simp [parLookups, Call.parLookup]
  · rw [gateLookups_append]
    simp [gateLookups, Call.gateLookup]
